import Mathlib

/-!
Verification of the PriceGuard monitoring core against its specification.

Each definition below is a shallow embedding of a function of the Python
source; database reads (the most recent `MonitoringResult`, the product's
`ProductMonitoringConfig`) are passed as explicit parameters, `Decimal` and
`float` prices are modelled as rationals, and timestamps as naturals.
-/

namespace PriceGuard

/-! ### Data model (products/models.py, monitoring/models.py)

`Product` keeps the fields read and written by the monitoring worker
(`src/monitoring/tasks.py`): `current_price`, `is_available`, `last_checked`,
`lowest_price`, `highest_price`. -/

structure Product where
  current_price : ℚ
  lowest_price : ℚ
  highest_price : ℚ
  is_available : Bool
  last_checked : Option ℕ
deriving Repr, DecidableEq

/-- The normalized extractor payload (`current_data` in
`MonitoringResultsAnalyzer.analyze_result`): a dict whose keys may be
absent, hence `Option` fields.  `current_data.get('price', 0)` etc. are
modelled with `Option.getD`. -/
structure ObsPayload where
  price : Option ℚ
  in_stock : Option Bool
  is_deal : Option Bool
deriving Repr, DecidableEq

/-- The fields of `ProductMonitoringConfig` consulted by
`_check_alert_conditions`. -/
structure PMConfig where
  notify_on_any_change : Bool
  price_threshold_percentage : Option ℚ
  price_threshold_absolute : Option ℚ
deriving Repr, DecidableEq

/-- `MonitoringResult` (monitoring/models.py): nullable columns are
`Option`; `alert_message` (a display string) is not modelled. -/
structure MonitoringResult where
  monitored_at : ℕ
  current_price : ℚ
  currently_available : Bool
  is_deal : Bool
  previous_price : Option ℚ
  previously_available : Option Bool
  price_changed : Bool
  price_change_amount : Option ℚ
  price_change_percentage : Option ℚ
  availability_changed : Bool
  alert_triggered : Bool
  alert_type : Option String
deriving Repr, DecidableEq

/-! ### Result analyzer (monitoring/services.py, `MonitoringResultsAnalyzer`) -/

/-- `MonitoringResultsAnalyzer._check_alert_conditions` (services.py:349-419).
`config` is the `ProductMonitoringConfig.objects.get` result (`none` models
`DoesNotExist`, where the method returns without touching the result).
Python truthiness of the nullable `previously_available` is modelled with
`Option.getD false` (both `None` and `False` are falsy).  Inside the
`price_changed` branch `price_change_amount` is always set by
`analyze_result`, so `Option.getD 0` is only a totalization. -/
def check_alert_conditions (config : Option PMConfig) (product : Product)
    (r : MonitoringResult) : MonitoringResult :=
  match config with
  | none => r
  | some cfg =>
    -- availability change alerts
    let r :=
      if r.availability_changed then
        if ¬(r.previously_available.getD false) ∧ r.currently_available then
          { r with alert_triggered := true, alert_type := some "back_in_stock" }
        else if (r.previously_available.getD false) ∧ ¬r.currently_available then
          { r with alert_triggered := true, alert_type := some "out_of_stock" }
        else r
      else r
    -- price change alerts
    let r :=
      if r.price_changed then
        let threshold_abs : Bool :=
          match cfg.price_threshold_absolute, r.price_change_amount with
          | some th, some a => |a| ≥ th
          | _, _ => false
        let threshold_pct : Bool :=
          match cfg.price_threshold_percentage, r.price_change_percentage with
          | some th, some p => |p| ≥ th
          | _, _ => false
        let threshold_met := threshold_abs || threshold_pct || cfg.notify_on_any_change
        let r :=
          if threshold_met ∧ r.price_change_amount.getD 0 < 0 then
            { r with alert_triggered := true, alert_type := some "price_drop" }
          else r
        -- the lowest-price check compares with equality against the
        -- product's stored lowest price (services.py:410)
        if r.current_price = product.lowest_price then
          { r with alert_triggered := true, alert_type := some "lowest_price" }
        else r
      else r
    -- deal alert
    if r.is_deal ∧ ¬r.alert_triggered then
      { r with alert_triggered := true, alert_type := some "deal" }
    else r

/-- `MonitoringResultsAnalyzer.analyze_result` (services.py:278-347).
`last_result` is the most recent prior `MonitoringResult` for the product
(the `.order_by('-monitored_at').first()` query), `config` the product's
monitoring config.  The `save` calls and `last_monitored` bookkeeping are
persistence and not modelled. -/
def analyze_result (last_result : Option MonitoringResult)
    (config : Option PMConfig) (product : Product) (data : ObsPayload)
    (now : ℕ) : MonitoringResult :=
  let r : MonitoringResult :=
    { monitored_at := now
      current_price := data.price.getD 0
      currently_available := data.in_stock.getD true
      is_deal := data.is_deal.getD false
      previous_price := none
      previously_available := none
      price_changed := false
      price_change_amount := none
      price_change_percentage := none
      availability_changed := false
      alert_triggered := false
      alert_type := none }
  let r :=
    match last_result with
    | none => r
    | some last =>
      let r := { r with previous_price := some last.current_price,
                        previously_available := some last.currently_available }
      let r :=
        if last.current_price ≠ r.current_price then
          let amount := r.current_price - last.current_price
          let r := { r with price_changed := true,
                            price_change_amount := some amount }
          if last.current_price > 0 then
            { r with price_change_percentage := some (amount / last.current_price * 100) }
          else r
        else r
      if last.currently_available ≠ r.currently_available then
        { r with availability_changed := true }
      else r
  check_alert_conditions config product r

/-- The product-mutation step of `_perform_monitoring`
(monitoring/tasks.py:94-105), run after `analyze_result` on the successful
path: update `current_price` / `is_available` / `last_checked` and widen
`lowest_price` / `highest_price`. -/
def update_product_after_monitoring (product : Product) (data : ObsPayload)
    (now : ℕ) : Product :=
  let p := { product with
    current_price := data.price.getD product.current_price
    is_available := data.in_stock.getD product.is_available
    last_checked := some now }
  let p := if p.current_price < p.lowest_price then
      { p with lowest_price := p.current_price } else p
  if p.current_price > p.highest_price then
      { p with highest_price := p.current_price } else p

/-! ### Monitoring tasks (monitoring/models.py, `MonitoringTask`) -/

/-- The lifecycle-relevant fields of a `MonitoringTask` row. -/
structure MonitoringTask where
  status : String
  priority : ℤ
  retry_count : ℕ
  max_retries : ℕ
  started_at : Option ℕ
  completed_at : Option ℕ
  error_message : Option String
deriving Repr, DecidableEq

/-- `MonitoringTask.mark_as_running` (models.py:58-62). -/
def mark_as_running (t : MonitoringTask) (now : ℕ) : MonitoringTask :=
  { t with status := "running", started_at := some now }

/-- `MonitoringTask.mark_as_completed` (models.py:64-70); `result_data` is
not modelled. -/
def mark_as_completed (t : MonitoringTask) (now : ℕ) : MonitoringTask :=
  { t with status := "completed", completed_at := some now }

/-- `MonitoringTask.mark_as_failed` (models.py:72-84).  Returns the
method's boolean (`true` = definitive failure) paired with the updated
row.  On a transient failure only `retry_count` and `error_message` are
written; the `status` field is left as it is. -/
def mark_as_failed (t : MonitoringTask) (msg : String) (now : ℕ) :
    Bool × MonitoringTask :=
  if t.retry_count < t.max_retries then
    (false, { t with retry_count := t.retry_count + 1, error_message := some msg })
  else
    (true, { t with status := "failed", completed_at := some now,
                    error_message := some msg })

/-- One worker attempt that raises (`_perform_monitoring`'s except branch,
tasks.py:125-134): the task was first marked running (tasks.py:69), then
`mark_as_failed` records the error; if a retry is possible Celery re-runs
the whole task, which marks it running again. -/
def failed_attempt (t : MonitoringTask) (msg : String) (now : ℕ) :
    Bool × MonitoringTask :=
  mark_as_failed (mark_as_running t now) msg now

/-! ### Task distribution (monitoring/utils/task_distribution.py) -/

/-- A pending task as seen by `TaskDistributor.load_balance_monitoring_tasks`:
only `priority` matters for lane placement (`id` distinguishes tasks). -/
structure DistTask where
  priority : ℤ
  id : ℕ
deriving Repr, DecidableEq

/-- One iteration of the lane-filling loop of
`load_balance_monitoring_tasks` (task_distribution.py:51-57): append the
task to the first lane whose guard passes. -/
def lane_place (high_slots normal_slots low_slots : ℕ) (t : DistTask)
    (acc : List DistTask × List DistTask × List DistTask) :
    List DistTask × List DistTask × List DistTask :=
  let (h, n, l) := acc
  if t.priority ≤ 3 ∧ h.length < high_slots then (h ++ [t], n, l)
  else if t.priority ≤ 7 ∧ n.length < normal_slots then (h, n ++ [t], l)
  else if l.length < low_slots then (h, n, l ++ [t])
  else (h, n, l)

/-- The lane-filling loop of `load_balance_monitoring_tasks`
(task_distribution.py:51-63): place each task, breaking once all three
lanes are full. -/
def distribute_lanes (high_slots normal_slots low_slots : ℕ) :
    List DistTask → List DistTask × List DistTask × List DistTask →
    List DistTask × List DistTask × List DistTask
  | [], acc => acc
  | t :: rest, acc =>
    let acc := lane_place high_slots normal_slots low_slots t acc
    if acc.1.length ≥ high_slots ∧ acc.2.1.length ≥ normal_slots ∧
        acc.2.2.length ≥ low_slots then acc
    else distribute_lanes high_slots normal_slots low_slots rest acc

/-- `TaskDistributor.load_balance_monitoring_tasks`
(task_distribution.py:19-65).  `pending` is the DB query result: pending
tasks ordered by `(priority, scheduled_time)`, sliced to `max_tasks*2`.
`int(max_tasks * 0.4)` is `2 * max_tasks / 5` on naturals (float rounding
cannot cross an integer here). -/
def load_balance_monitoring_tasks (pending : List DistTask) (max_tasks : ℕ) :
    List DistTask × List DistTask × List DistTask :=
  let high_slots := 2 * max_tasks / 5
  let normal_slots := 2 * max_tasks / 5
  let low_slots := max_tasks - high_slots - normal_slots
  distribute_lanes high_slots normal_slots low_slots
    (pending.take (2 * max_tasks)) ([], [], [])

/-- A pending task as seen by the retailer throttle: its product's
retailer name. -/
structure RTask where
  retailer : String
  id : ℕ
deriving Repr, DecidableEq

/-- `needle` occurs as a contiguous run of `hay` starting at its head. -/
def charsStartWith : List Char → List Char → Bool
  | _, [] => true
  | [], _ :: _ => false
  | c :: cs, d :: ds => c == d && charsStartWith cs ds

/-- Membership test for Python's `needle in hay` on strings. -/
def charsContain : List Char → List Char → Bool
  | [], needle => needle.isEmpty
  | c :: cs, needle => charsStartWith (c :: cs) needle || charsContain cs needle

def strContains (hay needle : String) : Bool :=
  charsContain hay.toList needle.toList

/-- The per-retailer ceiling of `manage_resource_throttling`
(task_distribution.py:237-246): substring matching on the lowercased
retailer name. -/
def retailer_limit (name : String) : ℕ :=
  if strContains name.toLower "amazon" then 20
  else if strContains name.toLower "fnac" || strContains name.toLower "darty"
      || strContains name.toLower "boulanger" then 10
  else 5

/-- `TaskDistributor.manage_resource_throttling`
(task_distribution.py:214-254).  `running` is the grouped DB aggregate:
one `(retailer name, running count)` pair per retailer that currently has
at least one `running` task.  Yields `(name, (current, limit, available))`;
natural subtraction realizes `max(0, limit - current)`. -/
def manage_resource_throttling (running : List (String × ℕ)) :
    List (String × (ℕ × ℕ × ℕ)) :=
  running.map fun p => (p.1, (p.2, retailer_limit p.1, retailer_limit p.1 - p.2))

/-- Replace the value of every entry of key `k`. -/
def assocSet : List (String × ℕ) → String → ℕ → List (String × ℕ)
  | [], _, _ => []
  | p :: rest, k, v => (if p.1 = k then (k, v) else p) :: assocSet rest k v

/-- The selection loop of `throttle_tasks_by_retailer`
(task_distribution.py:274-291): `counts` is `selected_count`, `avail` maps
each known retailer to `retailer_limits[name]['available']`.  A retailer
not yet known is registered with count 0 and the default availability 5. -/
def throttle_go : List RTask → List (String × ℕ) → List (String × ℕ) →
    List RTask
  | [], _, _ => []
  | t :: rest, counts, avail =>
    let counts := if (counts.lookup t.retailer).isNone
      then (t.retailer, 0) :: counts else counts
    let avail := if (avail.lookup t.retailer).isNone
      then (t.retailer, 5) :: avail else avail
    let c := (counts.lookup t.retailer).getD 0
    let a := (avail.lookup t.retailer).getD 0
    if c < a then
      t :: throttle_go rest (assocSet counts t.retailer (c + 1)) avail
    else
      throttle_go rest counts avail

/-- `TaskDistributor.throttle_tasks_by_retailer`
(task_distribution.py:256-292): fetch the live limits, then admit tasks
while each retailer's selected count stays below its availability. -/
def throttle_tasks_by_retailer (tasks : List RTask)
    (running : List (String × ℕ)) : List RTask :=
  let limits := manage_resource_throttling running
  throttle_go tasks (limits.map fun p => (p.1, 0))
    (limits.map fun p => (p.1, p.2.2.2))

/-! ### Product prioritization (monitoring/utils/product_prioritization.py) -/

/-- The scoring core of `ProductPrioritizer.calculate_priority_score`
(product_prioritization.py:26-66), parameterized over the five factor
scores (the factor sub-computations read the DB; the claim concerns the
weighted combination).  Weights are the `FACTORS` table; floats are exact
rationals here. -/
def calculate_priority_score (volatility popularity price_level
    time_since_check manual_boost : ℚ) : ℚ :=
  let weighted_score := volatility * 0.35 + popularity * 0.25
    + price_level * 0.15 + time_since_check * 0.15 + manual_boost * 0.10
  let normalized_score := max 1 (min 10 weighted_score)
  11 - normalized_score

/-- The same computation written from the specification's words (§4.1):
"Weighted sum with weights {volatility: 0.35, popularity: 0.25,
priceLevel: 0.15, timeSinceCheck: 0.15, manualBoost: 0.10}.  Clamp to
[1, 10].  Return 11 − weighted."  Kept separate so the source formula can
be compared against it. -/
def spec_priority_score (volatility popularity price_level
    time_since_check manual_boost : ℚ) : ℚ :=
  let weighted := 0.35 * volatility + 0.25 * popularity + 0.15 * price_level
    + 0.15 * time_since_check + 0.10 * manual_boost
  let clamped := max 1 (min 10 weighted)
  11 - clamped

/-! ### Notification deliveries (notifications/models.py,
`NotificationDelivery`) -/

structure NotificationDelivery where
  status : String
  sent_at : Option ℕ
  delivered_at : Option ℕ
  opened_at : Option ℕ
  clicked_at : Option ℕ
  error_message : Option String
deriving Repr, DecidableEq

/-- `NotificationDelivery.mark_as_sent` (models.py:147-151). -/
def mark_as_sent (d : NotificationDelivery) (now : ℕ) : NotificationDelivery :=
  { d with status := "sent", sent_at := some now }

/-- `NotificationDelivery.mark_as_delivered` (models.py:153-157). -/
def mark_as_delivered (d : NotificationDelivery) (now : ℕ) : NotificationDelivery :=
  { d with status := "delivered", delivered_at := some now }

/-- `NotificationDelivery.mark_as_opened` (models.py:159-163). -/
def mark_as_opened (d : NotificationDelivery) (now : ℕ) : NotificationDelivery :=
  { d with status := "opened", opened_at := some now }

/-- `NotificationDelivery.mark_as_clicked` (models.py:165-169). -/
def mark_as_clicked (d : NotificationDelivery) (now : ℕ) : NotificationDelivery :=
  { d with status := "clicked", clicked_at := some now }

/-- `NotificationDelivery.mark_as_failed` (models.py:171-175). -/
def mark_delivery_failed (d : NotificationDelivery) (msg : String) :
    NotificationDelivery :=
  { d with status := "failed", error_message := some msg }

/-- The delivery-status update of `EngagementService.track_engagement`
(notifications/services.py:408-414): dispatch on the engagement event
type; any other event type leaves the delivery untouched. -/
def track_engagement_status (event_type : String) (now : ℕ)
    (d : NotificationDelivery) : NotificationDelivery :=
  if event_type = "delivered" then mark_as_delivered d now
  else if event_type = "opened" then mark_as_opened d now
  else if event_type = "clicked" then mark_as_clicked d now
  else d

/-- The ordering of delivery statuses asserted by the specification
(`pending < sent < delivered < opened < clicked`, `failed` alongside
`delivered`). -/
def delivery_status_level : String → ℕ
  | "pending" => 0
  | "sent" => 1
  | "delivered" => 2
  | "failed" => 2
  | "opened" => 3
  | "clicked" => 4
  | _ => 0

/-! ### Notification scheduling (notifications/services.py,
`AlertRuleService._schedule_notifications`) -/

/-- The priority-elevation step (services.py:288-302): for a `price_drop`
event the base priority is raised by 2 when `abs(price_diff_pct) > 20`,
by 1 when `> 10` (both capped at 10), and forced to 10 when the event is
the lowest price ever. -/
def elevated_priority (base : ℤ) (event_type : String) (price_diff_pct : ℚ)
    (is_lowest_price : Bool) : ℤ :=
  if event_type = "price_drop" then
    let diff_pct := |price_diff_pct|
    let p :=
      if diff_pct > 20 then min 10 (base + 2)
      else if diff_pct > 10 then min 10 (base + 1)
      else base
    if is_lowest_price then 10 else p
  else base

/-- The batching decision (services.py:315-332): translate the user's
notification-frequency preference (falling back to the channel's default),
then force `immediate` whenever the elevated priority is at least 9. -/
def batch_type_for (user_preference channel_default : String)
    (priority : ℤ) : String :=
  let batch_type :=
    if user_preference = "immediate" then "immediate"
    else if user_preference = "hourly" then "hourly"
    else if user_preference = "daily" then "daily"
    else channel_default
  if priority ≥ 9 then "immediate" else batch_type

/-! ### Alert rules (notifications/models.py, `AlertRule`)

`AlertRule.condition` is a `JSONField`; conditions and event data are
arbitrary JSON values, modelled by `Json` below (objects as association
lists in insertion order, numbers as rationals). -/

inductive Json where
  | null : Json
  | bool : Bool → Json
  | num : ℚ → Json
  | str : String → Json
  | arr : List Json → Json
  | obj : List (String × Json) → Json
deriving Repr, BEq

/-- Python `dict.get(k)` on a JSON object (`None`, i.e. `none`, when the
key is absent or the value is not an object). -/
def jget (c : Json) (k : String) : Option Json :=
  match c with
  | .obj kvs => kvs.lookup k
  | _ => none

/-- Python's numeric view: `bool` is a subtype of `int`, so `True` counts
as `1` in comparisons. -/
def pyNum : Json → Option ℚ
  | .num q => some q
  | .bool b => some (if b then 1 else 0)
  | _ => none

/-- Python `==` on JSON scalars: numeric values (including booleans)
compare by value; anything else compares structurally.  (Numeric/boolean
mixes nested inside containers, and dict key order, are not special-cased;
the source only compares scalar event fields.) -/
def jsonEq (a b : Json) : Bool :=
  match pyNum a, pyNum b with
  | some x, some y => x == y
  | _, _ => a == b

/-- Python `str(...)` of the JSON scalars the source stringifies. -/
def pyStr : Json → String
  | .str s => s
  | .null => "None"
  | .bool b => if b then "True" else "False"
  | .num q => toString q
  | .arr _ => ""
  | .obj _ => ""

/-- The comparison leaves of `AlertRule._evaluate_condition`
(models.py:77-95).  `field not in event_data` yields `False`; a missing
`value` key is Python `None`.  Ordered comparisons are defined on
number-likes and on string pairs; any other pairing raises (`.error`),
as Python 3 comparisons do on unordered types. -/
def evalLeaf (op : String) (c : Json) (ev : List (String × Json)) :
    Except Unit Bool :=
  match jget c "field" with
  | some (.str f) =>
    match ev.lookup f with
    | some field_value =>
      let value := (jget c "value").getD .null
      if op = "EQ" then .ok (jsonEq field_value value)
      else
        match pyNum field_value, pyNum value with
        | some x, some y =>
          if op = "GT" then .ok (decide (x > y))
          else if op = "LT" then .ok (decide (x < y))
          else if op = "GTE" then .ok (decide (x ≥ y))
          else .ok (decide (x ≤ y))
        | _, _ =>
          match field_value, value with
          | .str a, .str b =>
            if op = "GT" then .ok (decide (a > b))
            else if op = "LT" then .ok (decide (a < b))
            else if op = "GTE" then .ok (decide (a ≥ b))
            else .ok (decide (a ≤ b))
          | _, _ => .error ()
    | none => .ok false
  | _ => .ok false

theorem sizeOf_of_lookup (kvs : List (String × Json)) (k : String) (v : Json)
    (h : kvs.lookup k = some v) : sizeOf v < sizeOf kvs := by
  induction kvs with
  | nil => simp [List.lookup] at h
  | cons p rest ih =>
    obtain ⟨a, b⟩ := p
    rw [List.lookup] at h
    by_cases hk : k == a
    · simp [hk] at h
      subst h
      simp
      omega
    · simp [hk] at h
      have := ih h
      simp
      omega

theorem sizeOf_of_jget (c : Json) (k : String) (v : Json)
    (h : jget c k = some v) : sizeOf v < sizeOf c := by
  cases c <;> simp [jget] at h
  case obj kvs =>
    have := sizeOf_of_lookup kvs k v h
    simp
    omega

mutual

/-- `AlertRule._evaluate_condition` (models.py:67-97), by mutual recursion
with the short-circuiting `all(...)` / `any(...)` folds of the `AND` / `OR`
branches.  A missing `conditions` key defaults to the empty list; a
non-list value there raises, as iterating it in Python would.  `NOT` with a
missing `condition` key recurses on the default `{}`, which evaluates to
`False`, so the branch yields `True` directly.  Every unknown or absent
operator reaches the final `return False`. -/
def evalCond (c : Json) (ev : List (String × Json)) : Except Unit Bool :=
  match jget c "operator" with
  | some (.str op) =>
    if op = "AND" then
      match h : jget c "conditions" with
      | some (.arr l) => evalAll l ev
      | none => .ok true
      | some _ => .error ()
    else if op = "OR" then
      match h : jget c "conditions" with
      | some (.arr l) => evalAny l ev
      | none => .ok false
      | some _ => .error ()
    else if op = "NOT" then
      match h : jget c "condition" with
      | some c2 => do
        let b ← evalCond c2 ev
        pure (!b)
      | none => .ok true
    else if op = "EQ" || op = "GT" || op = "LT" || op = "GTE" || op = "LTE" then
      evalLeaf op c ev
    else .ok false
  | _ => .ok false
termination_by sizeOf c
decreasing_by
  · have := sizeOf_of_jget _ _ _ h; simp at this; omega
  · have := sizeOf_of_jget _ _ _ h; simp at this; omega
  · have := sizeOf_of_jget _ _ _ h; omega

def evalAll (l : List Json) (ev : List (String × Json)) : Except Unit Bool :=
  match l with
  | [] => .ok true
  | x :: xs => do
    let b ← evalCond x ev
    if b then evalAll xs ev else pure false
termination_by sizeOf l
decreasing_by
  all_goals simp
  all_goals omega

def evalAny (l : List Json) (ev : List (String × Json)) : Except Unit Bool :=
  match l with
  | [] => .ok false
  | x :: xs => do
    let b ← evalCond x ev
    if b then pure true else evalAny xs ev
termination_by sizeOf l
decreasing_by
  all_goals simp
  all_goals omega

end

/-- The rule row: `rule_type`, the optional product scope (its id,
stringified), the JSON `condition`, `is_active` and the base `priority`. -/
structure AlertRule where
  rule_type : String
  product : Option String
  condition : Json
  is_active : Bool
  priority : ℤ
deriving Repr, BEq

/-- `AlertRule.evaluate` (models.py:51-65): inactive rules and rules whose
`rule_type` or product scope does not match the event evaluate to `False`
before the condition tree is consulted. -/
def AlertRule.evaluate (r : AlertRule) (ev : List (String × Json)) :
    Except Unit Bool :=
  if ¬r.is_active then .ok false
  else
    match ev.lookup "event_type" with
    | some (.str s) =>
      if s ≠ r.rule_type then .ok false
      else
        match r.product with
        | some pid =>
          if pid ≠ pyStr ((ev.lookup "product_id").getD .null) then .ok false
          else evalCond r.condition ev
        | none => evalCond r.condition ev
    | _ => .ok false

/-! ### Worked scenarios

Concrete instances used by the theorems below: the specification's
end-to-end product P (`currentPrice=100, lowestEver=90`) with threshold
config `priceThresholdPct=5`, and the retry / throttle scenarios. -/

/-- Product P of the specification's end-to-end scenarios. -/
def productP : Product := ⟨100, 90, 150, true, some 0⟩

/-- The latest prior observation of P: price 100, in stock. -/
def lastObsP : MonitoringResult :=
  ⟨0, 100, true, false, none, none, false, none, none, false, false, none⟩

/-- P's config: `priceThresholdPct=5`, `notifyOnAnyChange=false`. -/
def configP : PMConfig := ⟨false, some 5, none⟩

/-- A config with `notifyOnAnyChange=true`. -/
def configAny : PMConfig := ⟨true, none, none⟩

/-- A fresh monitoring task with `maxRetries=3`. -/
def freshTask : MonitoringTask := ⟨"pending", 5, 0, 3, none, none, none⟩

/-- First to fourth transient failures of `freshTask`. -/
def attempt1 : Bool × MonitoringTask := failed_attempt freshTask "e1" 1
def attempt2 : Bool × MonitoringTask := failed_attempt attempt1.2 "e2" 2
def attempt3 : Bool × MonitoringTask := failed_attempt attempt2.2 "e3" 3
def attempt4 : Bool × MonitoringTask := failed_attempt attempt3.2 "e4" 4

/-- 25 pending amazon tasks followed by 5 pending fnac tasks. -/
def throttleScenario : List RTask :=
  ((List.range 25).map fun i => ⟨"amazon", i⟩)
    ++ ((List.range 5).map fun i => ⟨"fnac", 100 + i⟩)

/-- Five pending tasks of priority 1 (`maxTasks = 5` in the lane claim). -/
def fiveUrgent : List DistTask := (List.range 5).map fun i => ⟨1, i⟩

/-! ## Theorems -/

/-! ### Analyzer bookkeeping lemmas: `_check_alert_conditions` only writes
the alert fields, and the product-update step always stamps
`last_checked`. -/

theorem check_alert_conditions_current_price (config : Option PMConfig)
    (product : Product) (r : MonitoringResult) :
    (check_alert_conditions config product r).current_price = r.current_price := by
  unfold check_alert_conditions
  rcases config with _ | cfg
  · rfl
  · dsimp only
    repeat' split
    all_goals rfl

theorem check_alert_conditions_pct (config : Option PMConfig)
    (product : Product) (r : MonitoringResult) :
    (check_alert_conditions config product r).price_change_percentage
      = r.price_change_percentage := by
  unfold check_alert_conditions
  rcases config with _ | cfg
  · rfl
  · dsimp only
    repeat' split
    all_goals rfl

theorem check_alert_conditions_amount (config : Option PMConfig)
    (product : Product) (r : MonitoringResult) :
    (check_alert_conditions config product r).price_change_amount
      = r.price_change_amount := by
  unfold check_alert_conditions
  rcases config with _ | cfg
  · rfl
  · dsimp only
    repeat' split
    all_goals rfl

theorem analyze_result_current_price (last_result : Option MonitoringResult)
    (config : Option PMConfig) (product : Product) (data : ObsPayload) (now : ℕ) :
    (analyze_result last_result config product data now).current_price
      = data.price.getD 0 := by
  unfold analyze_result
  rw [check_alert_conditions_current_price]
  rcases last_result with _ | last
  · rfl
  · dsimp only
    repeat' split
    all_goals rfl

theorem update_product_current_price (product : Product) (data : ObsPayload) (now : ℕ) :
    (update_product_after_monitoring product data now).current_price
      = data.price.getD product.current_price := by
  unfold update_product_after_monitoring
  dsimp only
  repeat' split
  all_goals rfl

theorem update_product_last_checked (product : Product) (data : ObsPayload) (now : ℕ) :
    (update_product_after_monitoring product data now).last_checked = some now := by
  unfold update_product_after_monitoring
  dsimp only
  repeat' split
  all_goals rfl

/-! ### C1 — lowest-price-ever detection -/

/-- C1: the claim expects a new observation at price 88 against
`lowestEver = 90` to be classified `lowestPriceEver` (overriding
`priceDrop`), since `88 ≤ 90`.  The analyzer however compares the new price
for *equality* with the stored `lowest_price` (services.py:410), which
still holds its pre-update value when `_check_alert_conditions` runs, so
the record-breaking observation is classified `price_drop`; the product's
`lowest_price` is nevertheless widened to 88 afterwards by the worker. -/
theorem record_low_classified_price_drop :
    (analyze_result (some lastObsP) (some configP) productP
        ⟨some 88, some true, some false⟩ 1).alert_type = some "price_drop" ∧
    (88 : ℚ) ≤ productP.lowest_price ∧
    (update_product_after_monitoring productP
        ⟨some 88, some true, some false⟩ 1).lowest_price = 88 := by
  refine ⟨?_, by norm_num [productP], ?_⟩
  · norm_num [analyze_result, check_alert_conditions, lastObsP, configP, productP]
  · norm_num [update_product_after_monitoring, productP]

/-! ### C4 — retry handling of failed tasks -/

/-- C4 counterexample: the claim states that a transient failure (with
`retryCount < maxRetries`) moves a running task back to status `pending`.
`mark_as_failed` does not touch the `status` field on the transient path,
so after the first failed attempt the task is still `running`, with
`retry_count = 1`. -/
theorem transient_failure_leaves_status_running :
    attempt1.2.status = "running" ∧ attempt1.2.retry_count = 1 ∧
    ¬ attempt1.2.status = "pending" := by decide

/-- C4 (amended): a task with `maxRetries = 3` failing transiently four
times progresses `pending → running(rc=1) → running(rc=2) → running(rc=3)
→ failed`; the status is never reset to `pending` between attempts, the
first three calls report a retry is possible (`false`), and the terminal
failure sets `completed_at`. -/
theorem retry_exhaustion_trace :
    attempt1 = (false, ⟨"running", 5, 1, 3, some 1, none, some "e1"⟩) ∧
    attempt2 = (false, ⟨"running", 5, 2, 3, some 2, none, some "e2"⟩) ∧
    attempt3 = (false, ⟨"running", 5, 3, 3, some 3, none, some "e3"⟩) ∧
    attempt4 = (true, ⟨"failed", 5, 3, 3, some 4, some 4, some "e4"⟩) := by decide

/-! ### C5 — delivery status monotonicity -/

/-- C5 counterexample: a `delivered` engagement event arriving after the
delivery has already reached `opened` rewrites the status to `delivered`,
a strictly lower level — the claimed monotonicity under arbitrary arrival
orders fails. -/
theorem late_delivered_event_downgrades_status :
    (track_engagement_status "delivered" 7
        ⟨"opened", some 1, none, some 2, none, none⟩).status = "delivered" ∧
    delivery_status_level "delivered" < delivery_status_level "opened" := by decide

/-- C5 (amended): each engagement event overwrites the delivery status
with its own value unconditionally, so the status sequence follows the
arrival order of events; it advances monotonically only when events arrive
in the canonical order. -/
theorem track_engagement_status_overwrites (d : NotificationDelivery) (now : ℕ) :
    (track_engagement_status "delivered" now d).status = "delivered" ∧
    (track_engagement_status "opened" now d).status = "opened" ∧
    (track_engagement_status "clicked" now d).status = "clicked" :=
  ⟨rfl, rfl, rfl⟩

/-! ### C6 — notification priority elevation -/

/-- C6 counterexample: the claim says a price drop of ≥ 20 % elevates the
base priority by 2, but the source uses strict comparisons
(`diff_pct > 20`, services.py:295), so a drop of exactly 20 % falls into
the `> 10` branch and only gains +1: base 5 becomes 6, not 7. -/
theorem exact_twenty_percent_drop_gains_one :
    elevated_priority 5 "price_drop" (-20) false = 6 ∧ (6 : ℤ) ≠ 7 := by
  constructor
  · norm_num [elevated_priority]
  · decide

/-- C6 (amended): for a triggered `price_drop` rule the dispatch priority
is the base priority elevated by +2 when the drop is strictly greater than
20 %, by +1 when strictly greater than 10 % (both capped at 10), unchanged
at 10 % or below, and forced to exactly 10 for the lowest price ever; a
priority of at least 9 forces the batch type to `immediate` regardless of
the user's preference. -/
theorem elevated_priority_strict_thresholds (base : ℤ) (pct : ℚ)
    (lowest : Bool) (pref dflt : String) (pr : ℤ) :
    (|pct| > 20 → lowest = false →
      elevated_priority base "price_drop" pct lowest = min 10 (base + 2)) ∧
    (|pct| ≤ 20 → |pct| > 10 → lowest = false →
      elevated_priority base "price_drop" pct lowest = min 10 (base + 1)) ∧
    (|pct| ≤ 10 → lowest = false →
      elevated_priority base "price_drop" pct lowest = base) ∧
    (lowest = true → elevated_priority base "price_drop" pct lowest = 10) ∧
    (pr ≥ 9 → batch_type_for pref dflt pr = "immediate") := by
  refine ⟨?_, ?_, ?_, ?_, ?_⟩
  · intro h1 h2
    subst h2
    simp [elevated_priority, h1]
  · intro h1 h2 h3
    subst h3
    simp [elevated_priority, not_lt.mpr h1, h2]
  · intro h1 h2
    subst h2
    have h20 : ¬ (20 : ℚ) < |pct| := not_lt.mpr (h1.trans (show (10:ℚ) ≤ 20 by norm_num))
    have h10 : ¬ (10 : ℚ) < |pct| := not_lt.mpr h1
    simp [elevated_priority, h20, h10]
  · intro h
    subst h
    simp [elevated_priority]
  · intro h
    simp [batch_type_for, if_pos h]

/-- Witness for `elevated_priority_strict_thresholds` at drops of 25 %,
12 % and 3 %, a lowest-ever event, and priority 9. -/
theorem elevated_priority_strict_thresholds_witness :
    elevated_priority 5 "price_drop" (-25) false = 7 ∧
    elevated_priority 5 "price_drop" (-12) false = 6 ∧
    elevated_priority 5 "price_drop" (-3) false = 5 ∧
    elevated_priority 3 "price_drop" (-2) true = 10 ∧
    batch_type_for "daily" "hourly" 9 = "immediate" := by
  refine ⟨?_, ?_, ?_, ?_, ?_⟩
  · have h := (elevated_priority_strict_thresholds 5 (-25) false "daily" "hourly" 9).1
      (by norm_num) rfl
    rw [h]; decide
  · have h := (elevated_priority_strict_thresholds 5 (-12) false "daily" "hourly" 9).2.1
      (by norm_num) (by norm_num) rfl
    rw [h]; decide
  · exact (elevated_priority_strict_thresholds 5 (-3) false "daily" "hourly" 9).2.2.1
      (by norm_num) rfl
  · exact (elevated_priority_strict_thresholds 3 (-2) true "daily" "hourly" 9).2.2.2.1 rfl
  · exact (elevated_priority_strict_thresholds 3 (-2) true "daily" "hourly" 9).2.2.2.2
      (by norm_num)

/-! ### C9 — priority scoring -/

/-- C9: the priority score equals 11 minus the weighted factor sum
(weights 0.35 / 0.25 / 0.15 / 0.15 / 0.10) clamped to [1, 10], and the
returned score therefore always lies in [1, 10] even when the raw
weighted sum falls outside that range. -/
theorem calculate_priority_score_correct (v p pl t m : ℚ) :
    calculate_priority_score v p pl t m = spec_priority_score v p pl t m ∧
    1 ≤ calculate_priority_score v p pl t m ∧
    calculate_priority_score v p pl t m ≤ 10 := by
  have key : v * 0.35 + p * 0.25 + pl * 0.15 + t * 0.15 + m * 0.10
      = 0.35 * v + 0.25 * p + 0.15 * pl + 0.15 * t + 0.10 * m := by ring
  unfold calculate_priority_score spec_priority_score
  rw [key]
  have h1 : (1 : ℚ) ≤ max 1 (min 10 (0.35 * v + 0.25 * p + 0.15 * pl + 0.15 * t + 0.10 * m)) :=
    le_max_left _ _
  have h2 : max 1 (min 10 (0.35 * v + 0.25 * p + 0.15 * pl + 0.15 * t + 0.10 * m)) ≤ 10 :=
    max_le (by norm_num) (min_le_left _ _)
  exact ⟨rfl, by linarith, by linarith⟩

/-! ### C7 — payloads with a missing price -/

/-- C7 counterexample: the claim says a payload whose price is missing
leaves the Product untouched and emits no alert.  In the source a
non-empty payload without a `price` key is analyzed as a price-0
observation: against a prior price of 100 (config
`notify_on_any_change = true`) it sets `price_changed` and triggers a
`price_drop` alert, and the worker still stamps `last_checked`. -/
theorem missing_price_payload_still_alerts :
    (analyze_result (some lastObsP) (some configAny) productP
        ⟨none, some true, some false⟩ 5).alert_triggered = true ∧
    (analyze_result (some lastObsP) (some configAny) productP
        ⟨none, some true, some false⟩ 5).alert_type = some "price_drop" ∧
    (update_product_after_monitoring productP
        ⟨none, some true, some false⟩ 5).last_checked = some 5 ∧
    productP.last_checked = some 0 := by
  refine ⟨?_, ?_, ?_, by norm_num [productP]⟩
  · norm_num [analyze_result, check_alert_conditions, lastObsP, configAny, productP]
  · norm_num [analyze_result, check_alert_conditions, lastObsP, configAny, productP]
  · norm_num [update_product_after_monitoring, productP]

/-- C7 (amended): a payload with no price is not rejected: the analyzer
records an observation with `current_price = 0` (and may therefore emit a
price-change alert), while the worker's product update keeps
`current_price` at its previous value but still refreshes `last_checked`;
the task completes normally rather than failing terminally. -/
theorem missing_price_treated_as_zero (last : MonitoringResult)
    (config : Option PMConfig) (product : Product) (data : ObsPayload)
    (now : ℕ) (h : data.price = none) :
    (analyze_result (some last) config product data now).current_price = 0 ∧
    (update_product_after_monitoring product data now).current_price
      = product.current_price ∧
    (update_product_after_monitoring product data now).last_checked = some now := by
  refine ⟨?_, ?_, update_product_last_checked product data now⟩
  · rw [analyze_result_current_price]
    simp [h]
  · rw [update_product_current_price]
    simp [h]

/-- Witness for `missing_price_treated_as_zero` on product P. -/
theorem missing_price_treated_as_zero_witness :
    (analyze_result (some lastObsP) (some configAny) productP
        ⟨none, some true, some false⟩ 5).current_price = 0 ∧
    (update_product_after_monitoring productP
        ⟨none, some true, some false⟩ 5).current_price = productP.current_price ∧
    (update_product_after_monitoring productP
        ⟨none, some true, some false⟩ 5).last_checked = some 5 :=
  missing_price_treated_as_zero lastObsP (some configAny) productP
    ⟨none, some true, some false⟩ 5 rfl

/-! ### C8 — zero previous price -/

/-- C8 counterexample: the claim says that with `previousPrice = 0` and a
changed price the percentage change is *defined and equal to 0*.  The
source only assigns `price_change_percentage` when `previous_price > 0`
(services.py:322), so the field stays `NULL` (`none`), not 0, while the
absolute amount is still computed. -/
theorem zero_previous_price_percentage_is_none :
    (analyze_result
        (some ⟨0, 0, true, false, none, none, false, none, none, false, false, none⟩)
        (some configAny) productP ⟨some 5, some true, some false⟩ 3).price_change_percentage
      = none ∧
    (analyze_result
        (some ⟨0, 0, true, false, none, none, false, none, none, false, false, none⟩)
        (some configAny) productP ⟨some 5, some true, some false⟩ 3).price_change_amount
      = some 5 := by
  constructor
  · norm_num [analyze_result, check_alert_conditions, configAny, productP]
  · norm_num [analyze_result, check_alert_conditions, configAny, productP]

/-- C8 (amended): with `previousPrice = 0` and a changed price there is no
division-by-zero error, but `priceChangePercentage` is left unset (`none`)
rather than 0; `priceChangeAmount` is still computed as
`currentPrice − previousPrice`. -/
theorem zero_previous_price_leaves_percentage_unset (last : MonitoringResult)
    (config : Option PMConfig) (product : Product) (data : ObsPayload)
    (now : ℕ) (p : ℚ) (hp : data.price = some p) (h0 : last.current_price = 0)
    (hne : p ≠ 0) :
    (analyze_result (some last) config product data now).price_change_percentage
      = none ∧
    (analyze_result (some last) config product data now).price_change_amount
      = some p := by
  unfold analyze_result
  rw [check_alert_conditions_pct, check_alert_conditions_amount]
  dsimp only
  rw [hp, h0]
  simp only [Option.getD_some]
  rw [if_pos (Ne.symm hne)]
  rw [if_neg (lt_irrefl (0 : ℚ))]
  constructor <;> (split <;> simp)

/-- Witness for `zero_previous_price_leaves_percentage_unset` at a prior
price of 0 and a new price of 5. -/
theorem zero_previous_price_leaves_percentage_unset_witness :
    (analyze_result
        (some ⟨0, 0, true, false, none, none, false, none, none, false, false, none⟩)
        (some configAny) productP ⟨some 5, some true, some false⟩ 3).price_change_percentage
      = none ∧
    (analyze_result
        (some ⟨0, 0, true, false, none, none, false, none, none, false, false, none⟩)
        (some configAny) productP ⟨some 5, some true, some false⟩ 3).price_change_amount
      = some 5 :=
  zero_previous_price_leaves_percentage_unset
    ⟨0, 0, true, false, none, none, false, none, none, false, false, none⟩
    (some configAny) productP ⟨some 5, some true, some false⟩ 3 5 rfl rfl
    (by norm_num)

/-! ### C10 — rules with a default or unknown condition never fire -/

theorem evalCond_unknown_operator (c : Json) (ev : List (String × Json))
    (h : ∀ s : String, jget c "operator" = some (Json.str s) →
      s ≠ "AND" ∧ s ≠ "OR" ∧ s ≠ "NOT" ∧ s ≠ "EQ" ∧ s ≠ "GT" ∧ s ≠ "LT" ∧
        s ≠ "GTE" ∧ s ≠ "LTE") :
    evalCond c ev = Except.ok false := by
  rw [evalCond]
  cases hop : jget c "operator" with
  | none => rfl
  | some j =>
    cases j with
    | str s =>
      obtain ⟨h1, h2, h3, h4, h5, h6, h7, h8⟩ := h s hop
      simp [h1, h2, h3, h4, h5, h6, h7, h8]
    | null => rfl
    | bool b => rfl
    | num q => rfl
    | arr l => rfl
    | obj kvs => rfl

/-- C10: a rule whose `condition` is the default empty object, or whose
`operator` entry is not one of AND, OR, NOT, EQ, GT, LT, GTE, LTE,
evaluates to `False` without raising (`Except.ok false`, never `.error`),
for every event — even when the rule is active and its `rule_type` and
product scope match.  Interior guards (inactive rule, type or product
mismatch) also return `False`, so every path does. -/
theorem default_or_unknown_condition_never_fires (r : AlertRule)
    (ev : List (String × Json))
    (h : ∀ s : String, jget r.condition "operator" = some (Json.str s) →
      s ≠ "AND" ∧ s ≠ "OR" ∧ s ≠ "NOT" ∧ s ≠ "EQ" ∧ s ≠ "GT" ∧ s ≠ "LT" ∧
        s ≠ "GTE" ∧ s ≠ "LTE") :
    r.evaluate ev = Except.ok false := by
  have hcond := evalCond_unknown_operator r.condition ev h
  unfold AlertRule.evaluate
  repeat (first | exact hcond | rfl | split)

/-- Witness for `default_or_unknown_condition_never_fires`: an active,
globally scoped `price_drop` rule with the default `{}` condition, on a
matching `price_drop` event. -/
theorem default_condition_never_fires_witness :
    AlertRule.evaluate ⟨"price_drop", none, Json.obj [], true, 5⟩
      [("event_type", Json.str "price_drop")] = Except.ok false :=
  default_or_unknown_condition_never_fires
    ⟨"price_drop", none, Json.obj [], true, 5⟩
    [("event_type", Json.str "price_drop")]
    (fun s hs => by simp [jget, List.lookup] at hs)

/-! ### C3 — lane allocation and (non-)demotion of high-priority tasks -/

theorem lane_place_high_mono (hs ns ls : ℕ) (t : DistTask)
    (acc : List DistTask × List DistTask × List DistTask) :
    acc.1.length ≤ (lane_place hs ns ls t acc).1.length := by
  rcases acc with ⟨h, n, l⟩
  unfold lane_place
  dsimp only
  repeat' split
  all_goals simp only [List.length_append, List.length_cons, List.length_nil]
  all_goals omega

theorem distribute_lanes_high_mono (hs ns ls : ℕ) (ts : List DistTask) :
    ∀ acc, acc.1.length ≤ (distribute_lanes hs ns ls ts acc).1.length := by
  induction ts with
  | nil => intro acc; simp [distribute_lanes]
  | cons t rest ih =>
    intro acc
    simp only [distribute_lanes]
    split
    · exact lane_place_high_mono hs ns ls t acc
    · exact le_trans (lane_place_high_mono hs ns ls t acc) (ih _)

theorem lane_place_high_all (hs ns ls : ℕ) (t : DistTask)
    (acc : List DistTask × List DistTask × List DistTask)
    (hall : ∀ x ∈ acc.1, x.priority ≤ 3) :
    ∀ x ∈ (lane_place hs ns ls t acc).1, x.priority ≤ 3 := by
  rcases acc with ⟨h, n, l⟩
  unfold lane_place
  dsimp only at hall ⊢
  split
  · next hcond =>
    intro x hx
    rcases List.mem_append.mp hx with hx1 | hx1
    · exact hall x hx1
    · rw [List.mem_singleton.mp hx1]
      exact hcond.1
  · split
    · exact hall
    · split
      · exact hall
      · exact hall

theorem distribute_lanes_high_all (hs ns ls : ℕ) (ts : List DistTask) :
    ∀ acc, (∀ x ∈ acc.1, x.priority ≤ 3) →
      ∀ x ∈ (distribute_lanes hs ns ls ts acc).1, x.priority ≤ 3 := by
  induction ts with
  | nil =>
    intro acc hall
    simpa [distribute_lanes] using hall
  | cons t rest ih =>
    intro acc hall
    simp only [distribute_lanes]
    split
    · exact lane_place_high_all hs ns ls t acc hall
    · exact ih _ (lane_place_high_all hs ns ls t acc hall)

theorem lane_place_no_demote (hs ns ls : ℕ) (t : DistTask)
    (acc : List DistTask × List DistTask × List DistTask)
    (hn : ∀ x ∈ acc.2.1, ¬ x.priority ≤ 3) (hl : ∀ x ∈ acc.2.2, ¬ x.priority ≤ 3)
    (hhigh : (lane_place hs ns ls t acc).1.length < hs) :
    (∀ x ∈ (lane_place hs ns ls t acc).2.1, ¬ x.priority ≤ 3) ∧
    (∀ x ∈ (lane_place hs ns ls t acc).2.2, ¬ x.priority ≤ 3) := by
  rcases acc with ⟨h, n, l⟩
  unfold lane_place at hhigh ⊢
  dsimp only at hn hl hhigh ⊢
  by_cases g1 : t.priority ≤ 3 ∧ h.length < hs
  · rw [if_pos g1] at hhigh ⊢
    exact ⟨hn, hl⟩
  · rw [if_neg g1] at hhigh ⊢
    by_cases g2 : t.priority ≤ 7 ∧ n.length < ns
    · rw [if_pos g2] at hhigh ⊢
      dsimp only at hhigh ⊢
      have ht : ¬ t.priority ≤ 3 := fun hp => g1 ⟨hp, hhigh⟩
      refine ⟨?_, hl⟩
      intro x hx
      rcases List.mem_append.mp hx with hx1 | hx1
      · exact hn x hx1
      · rw [List.mem_singleton.mp hx1]
        exact ht
    · rw [if_neg g2] at hhigh ⊢
      by_cases g3 : l.length < ls
      · rw [if_pos g3] at hhigh ⊢
        dsimp only at hhigh ⊢
        have ht : ¬ t.priority ≤ 3 := fun hp => g1 ⟨hp, hhigh⟩
        refine ⟨hn, ?_⟩
        intro x hx
        rcases List.mem_append.mp hx with hx1 | hx1
        · exact hl x hx1
        · rw [List.mem_singleton.mp hx1]
          exact ht
      · rw [if_neg g3] at hhigh ⊢
        exact ⟨hn, hl⟩

theorem distribute_lanes_no_demote (hs ns ls : ℕ) (ts : List DistTask) :
    ∀ acc, (distribute_lanes hs ns ls ts acc).1.length < hs →
      (∀ x ∈ acc.2.1, ¬ x.priority ≤ 3) → (∀ x ∈ acc.2.2, ¬ x.priority ≤ 3) →
      (∀ x ∈ (distribute_lanes hs ns ls ts acc).2.1, ¬ x.priority ≤ 3) ∧
      (∀ x ∈ (distribute_lanes hs ns ls ts acc).2.2, ¬ x.priority ≤ 3) := by
  induction ts with
  | nil =>
    intro acc hlen hn hl
    simp only [distribute_lanes]
    exact ⟨hn, hl⟩
  | cons t rest ih =>
    intro acc hlen hn hl
    simp only [distribute_lanes] at hlen ⊢
    by_cases hfull : (lane_place hs ns ls t acc).1.length ≥ hs ∧
        (lane_place hs ns ls t acc).2.1.length ≥ ns ∧
        (lane_place hs ns ls t acc).2.2.length ≥ ls
    · rw [if_pos hfull] at hlen ⊢
      exact absurd hfull.1 (not_le.mpr hlen)
    · rw [if_neg hfull] at hlen ⊢
      have hhigh : (lane_place hs ns ls t acc).1.length < hs :=
        lt_of_le_of_lt (distribute_lanes_high_mono hs ns ls rest _) hlen
      obtain ⟨hn2, hl2⟩ := lane_place_no_demote hs ns ls t acc hn hl hhigh
      exact ih _ hlen hn2 hl2

/-- C3 counterexample: with `maxTasks = 5` (slots 2/2/1) and five pending
priority-1 tasks, the `elif` cascade places tasks 2 and 3 in the *normal*
lane and task 4 in the *low* lane — tasks with priority ≤ 3 are demoted
within the same cycle, contrary to the claim that they never are. -/
theorem urgent_tasks_fill_normal_and_low :
    (load_balance_monitoring_tasks fiveUrgent 5).2.1 = [⟨1, 2⟩, ⟨1, 3⟩] ∧
    (load_balance_monitoring_tasks fiveUrgent 5).2.2 = [⟨1, 4⟩] ∧
    ((1 : ℤ) ≤ 3) := by decide

/-- C3 (amended): the high lane receives only tasks of priority ≤ 3, and a
high-priority task is placed outside the high lane only in a cycle whose
high lane filled up: whenever the cycle ends with the high lane below its
40 % slot allocation, no priority ≤ 3 task sits in the normal or low lane.
Once the high slots are exhausted the excess high-priority tasks spill
into the normal lane and then the low lane instead of being left for the
next cycle. -/
theorem high_priority_demoted_only_when_high_full (pending : List DistTask)
    (max_tasks : ℕ)
    (hroom : (load_balance_monitoring_tasks pending max_tasks).1.length
      < 2 * max_tasks / 5) :
    (∀ x ∈ (load_balance_monitoring_tasks pending max_tasks).1, x.priority ≤ 3) ∧
    (∀ x ∈ (load_balance_monitoring_tasks pending max_tasks).2.1, ¬ x.priority ≤ 3) ∧
    (∀ x ∈ (load_balance_monitoring_tasks pending max_tasks).2.2, ¬ x.priority ≤ 3) := by
  unfold load_balance_monitoring_tasks at hroom ⊢
  dsimp only at hroom ⊢
  obtain ⟨hn, hl⟩ := distribute_lanes_no_demote _ _ _ _ _ hroom
    (by simp) (by simp)
  exact ⟨distribute_lanes_high_all _ _ _ _ _ (by simp), hn, hl⟩

/-- Witness for `high_priority_demoted_only_when_high_full`: a single
pending task of priority 5 with `maxTasks = 5` leaves the high lane empty
(below its 2 slots), and indeed no priority ≤ 3 task sits in any lane. -/
theorem high_priority_demoted_only_when_high_full_witness :
    (load_balance_monitoring_tasks [⟨5, 0⟩] 5).1.length < 2 * 5 / 5 ∧
    ((∀ x ∈ (load_balance_monitoring_tasks [⟨5, 0⟩] 5).1, x.priority ≤ 3) ∧
     (∀ x ∈ (load_balance_monitoring_tasks [⟨5, 0⟩] 5).2.1, ¬ x.priority ≤ 3) ∧
     (∀ x ∈ (load_balance_monitoring_tasks [⟨5, 0⟩] 5).2.2, ¬ x.priority ≤ 3)) :=
  ⟨by decide, high_priority_demoted_only_when_high_full [⟨5, 0⟩] 5 (by decide)⟩

/-! ### C2 — retailer throttling -/

theorem lookup_assocSet_ne (l : List (String × ℕ)) (k k2 : String) (v : ℕ)
    (h : k2 ≠ k) : (assocSet l k v).lookup k2 = l.lookup k2 := by
  induction l with
  | nil => rfl
  | cons p rest ih =>
    rcases p with ⟨a, b⟩
    simp only [assocSet]
    by_cases hak : a = k
    · subst hak
      rw [show (if (a, b).1 = a then (a, v) else (a, b)) = (a, v) from if_pos rfl]
      have h1 : (k2 == a) = false := beq_eq_false_iff_ne.mpr h
      simp only [List.lookup, h1]
      exact ih
    · rw [show (if (a, b).1 = k then (k, v) else (a, b)) = (a, b) from if_neg hak]
      by_cases hk2a : k2 = a
      · subst hk2a
        simp [List.lookup]
      · have h2 : (k2 == a) = false := beq_eq_false_iff_ne.mpr hk2a
        simp only [List.lookup, h2]
        exact ih

theorem lookup_assocSet_eq (l : List (String × ℕ)) (k : String) (v : ℕ)
    (h : (l.lookup k).isSome) : (assocSet l k v).lookup k = some v := by
  induction l with
  | nil => simp [List.lookup] at h
  | cons p rest ih =>
    rcases p with ⟨a, b⟩
    simp only [assocSet]
    by_cases hak : a = k
    · subst hak
      rw [show (if (a, b).1 = a then (a, v) else (a, b)) = (a, v) from if_pos rfl]
      simp [List.lookup]
    · rw [show (if (a, b).1 = k then (k, v) else (a, b)) = (a, b) from if_neg hak]
      have hka : (k == a) = false := beq_eq_false_iff_ne.mpr (fun hh => hak hh.symm)
      simp only [List.lookup, hka] at h ⊢
      exact ih h

/-- Per-retailer admission bound for the selection loop: as long as
`counts` and `avail` register `name` with count `c` and availability `a`,
at most `a − c` further tasks of retailer `name` are admitted. -/
theorem throttle_go_bound (tasks : List RTask) :
    ∀ (counts avail : List (String × ℕ)) (name : String) (c a : ℕ),
      counts.lookup name = some c → avail.lookup name = some a →
      ((throttle_go tasks counts avail).filter
          (fun t => t.retailer = name)).length ≤ a - c := by
  induction tasks with
  | nil =>
    intro counts avail name c a hc ha
    simp [throttle_go]
  | cons t rest ih =>
    intro counts avail name c a hc ha
    simp only [throttle_go]
    by_cases hname : t.retailer = name
    · rw [hname]
      simp only [hc, ha, Option.isNone_some, Bool.false_eq_true, if_false,
        Option.getD_some]
      by_cases hca : c < a
      · rw [if_pos hca]
        have hrec := ih (assocSet counts name (c + 1)) avail name (c + 1) a
          (lookup_assocSet_eq counts name (c + 1) (by simp [hc])) ha
        simp only [List.filter_cons]
        rw [if_pos (by simp [hname])]
        simp only [List.length_cons]
        omega
      · rw [if_neg hca]
        exact ih counts avail name c a hc ha
    · have hne : name ≠ t.retailer := fun hh => hname hh.symm
      have hbeqf : (name == t.retailer) = false := beq_eq_false_iff_ne.mpr hne
      have hcCons : ((t.retailer, 0) :: counts).lookup name = some c := by
        simp only [List.lookup, hbeqf]
        exact hc
      have haCons : ((t.retailer, 5) :: avail).lookup name = some a := by
        simp only [List.lookup, hbeqf]
        exact ha
      have hskip : ∀ (l : List RTask),
          (List.filter (fun x => decide (x.retailer = name)) (t :: l)).length
            = (List.filter (fun x => decide (x.retailer = name)) l).length := by
        intro l
        simp only [List.filter_cons]
        rw [if_neg (by simp [hname])]
      split <;> split <;> split
      all_goals try rw [hskip]
      all_goals
        exact ih _ _ name c a
          (by first
            | (rw [lookup_assocSet_ne _ _ _ _ hne]
               first
                 | exact hcCons
                 | exact hc)
            | exact hcCons
            | exact hc)
          (by first | exact haCons | exact ha)

/-- A retailer unknown to the limits (no running tasks) is registered on
first sight with the default availability 5, so at most 5 of its tasks are
admitted. -/
theorem throttle_go_bound_default (tasks : List RTask) :
    ∀ (counts avail : List (String × ℕ)) (name : String),
      counts.lookup name = none → avail.lookup name = none →
      ((throttle_go tasks counts avail).filter
          (fun t => t.retailer = name)).length ≤ 5 := by
  induction tasks with
  | nil =>
    intro counts avail name hc ha
    simp [throttle_go]
  | cons t rest ih =>
    intro counts avail name hc ha
    simp only [throttle_go]
    by_cases hname : t.retailer = name
    · rw [hname]
      simp only [hc, ha, Option.isNone_none, if_true, List.lookup,
        beq_self_eq_true, Option.getD_some]
      rw [if_pos (by norm_num : (0 : ℕ) < 5)]
      have hrec := throttle_go_bound rest
        (assocSet ((name, 0) :: counts) name (0 + 1)) ((name, 5) :: avail) name 1 5
        (lookup_assocSet_eq _ _ _ (by simp [List.lookup]))
        (by simp [List.lookup])
      simp only [List.filter_cons]
      rw [if_pos (by simp [hname])]
      simp only [List.length_cons]
      omega
    · have hne : name ≠ t.retailer := fun hh => hname hh.symm
      have hbeqf : (name == t.retailer) = false := beq_eq_false_iff_ne.mpr hne
      have hcCons : ((t.retailer, 0) :: counts).lookup name = none := by
        simp only [List.lookup, hbeqf]
        exact hc
      have haCons : ((t.retailer, 5) :: avail).lookup name = none := by
        simp only [List.lookup, hbeqf]
        exact ha
      have hskip : ∀ (l : List RTask),
          (List.filter (fun x => decide (x.retailer = name)) (t :: l)).length
            = (List.filter (fun x => decide (x.retailer = name)) l).length := by
        intro l
        simp only [List.filter_cons]
        rw [if_neg (by simp [hname])]
      split <;> split <;> split
      all_goals try rw [hskip]
      all_goals
        exact ih _ _ name
          (by first
            | (rw [lookup_assocSet_ne _ _ _ _ hne]
               first
                 | exact hcCons
                 | exact hc)
            | exact hcCons
            | exact hc)
          (by first | exact haCons | exact ha)

/-- C2 counterexample: with 25 pending amazon tasks, 5 pending fnac tasks
and *no running tasks*, `manage_resource_throttling` reports no limits at
all (it derives them from the running tasks only), so
`throttle_tasks_by_retailer` registers both retailers with the default
availability 5 and admits exactly 5 amazon tasks — not the 20 the claim
(and the amazon=20 ceiling) expects. -/
theorem idle_amazon_capped_at_default :
    ((throttle_tasks_by_retailer throttleScenario []).filter
        (fun t => t.retailer = "amazon")).length = 5 ∧ (5 : ℕ) ≠ 20 := by decide

/-- C2 (amended): the name-based ceilings (amazon 20, fnac/darty/boulanger
10, otherwise 5) surface only for retailers that currently have running
tasks, as `available = ceiling − running`; every retailer absent from the
running counts is admitted up to the default 5 whatever its name.  In the
claimed scenario (25 amazon + 5 fnac pending, nothing running) exactly
5 amazon and 5 fnac tasks are admitted; the rest are not returned and so
stay pending. -/
theorem throttle_caps_idle_retailers_at_five :
    (∀ (tasks : List RTask) (name : String),
      ((throttle_tasks_by_retailer tasks []).filter
          (fun t => t.retailer = name)).length ≤ 5) ∧
    (∀ (tasks : List RTask) (name : String) (cnt : ℕ),
      ((throttle_tasks_by_retailer tasks [(name, cnt)]).filter
          (fun t => t.retailer = name)).length ≤ retailer_limit name - cnt) ∧
    ((throttle_tasks_by_retailer throttleScenario []).filter
        (fun t => t.retailer = "amazon")).length = 5 ∧
    ((throttle_tasks_by_retailer throttleScenario []).filter
        (fun t => t.retailer = "fnac")).length = 5 := by
  refine ⟨?_, ?_, by decide, by decide⟩
  · intro tasks name
    unfold throttle_tasks_by_retailer manage_resource_throttling
    simp only [List.map_nil]
    exact throttle_go_bound_default tasks [] [] name rfl rfl
  · intro tasks name cnt
    unfold throttle_tasks_by_retailer manage_resource_throttling
    simp only [List.map_cons, List.map_nil]
    have := throttle_go_bound tasks [(name, 0)] [(name, retailer_limit name - cnt)]
      name 0 (retailer_limit name - cnt)
      (by simp [List.lookup]) (by simp [List.lookup])
    simpa using this

end PriceGuard
